import Mathlib

/-!
Shallow embedding of the p2p-nexus-chat-app backend
(src/nodejs-assets/nodejs-project/backend/corestore-manager.js,
 the SwarmManager and P2PManager classes of the same package, and the
 bridge in main.js), together with theorems settling the frozen claims.

JavaScript objects whose field sets vary across the code paths are
modelled as Lean structures with `Option` fields, `none` standing for an
absent/undefined field.  JS `Map`s are modelled as association lists with
`mlookup`/`minsert` (Map.set overwrites, so `minsert` removes the shadowed
binding).  The wall clock (`Date.now()`) is an explicit `Nat` parameter at
every call site that reads it.  The cryptographic primitives of the
`hypercore-crypto` / `corestore` libraries (topic hashing, name-derived
keypairs, discovery keys) are opaque to this repository's code, so they are
a `CryptoModel` parameter: a record of total string functions.
-/

deriving instance DecidableEq for Except

namespace P2PNexus

/-- JS `Map` lookup over an association list (first binding wins). -/
def mlookup {κ α : Type} [DecidableEq κ] : List (κ × α) → κ → Option α
  | [], _ => none
  | (k, v) :: rest, key => if k = key then some v else mlookup rest key

/-- JS `Map.set`: overwrite the binding for `k`. -/
def minsert {κ α : Type} [DecidableEq κ] (l : List (κ × α)) (k : κ) (v : α) :
    List (κ × α) :=
  (k, v) :: l.filter (fun p => !(p.1 = k : Bool))

/-- JS `a || b` on a nullable string: `null`/`undefined` and the empty
string (the only falsy string) both fall back to `b`. -/
def jsStringOr (a : Option String) (b : String) : String :=
  match a with
  | some s => if s = "" then b else s
  | none => b

/-- Chat metadata object (an arbitrary JSON object; modelled as string
key/value pairs — its contents are never inspected by the backend). -/
abbrev Metadata := List (String × String)

/-- A chat-message-shaped JS object.  Incoming bridge messages carry only
`text`/`author`/`authorId` (main.js, `p2p-send-message` case); `appendMessage`
adds `timestamp` and `seq`; `sendMessage`'s return value additionally carries
`chatId`.  `none` = the field is absent. -/
structure Msg where
  text : Option String := none
  author : Option String := none
  authorId : Option String := none
  timestamp : Option Nat := none
  seq : Option Nat := none
  chatId : Option String := none
deriving DecidableEq, Repr

/-- Identity of a Hypercore obtained from the corestore:
`store.get({name})` derives a fresh local keypair from the name (writable),
`store.get({key})` opens the core addressed by that public key (no secret
key, hence not writable). -/
inductive CoreIdent where
  | byName (name : String)
  | byKey (key : String)
deriving DecidableEq, Repr

/-- A Hypercore: its identity and its entries (each appended block is the
JSON encoding of a `Msg`; we keep the decoded form). -/
structure Core where
  ident : CoreIdent
  entries : List Msg
deriving DecidableEq, Repr

/-- `core.writable`: true exactly for name-derived (locally owned) cores. -/
def coreWritable (c : Core) : Bool :=
  match c.ident with
  | .byName _ => true
  | .byKey _ => false

/-- The opaque cryptographic primitives used by the backend:
`hash` is `crypto.hash` (topic hashing, rendered as its hex string),
`namedKey` gives the public key of a name-derived core,
`dkey` is `crypto.discoveryKey` of a public key. -/
structure CryptoModel where
  hash : String → String
  namedKey : String → String
  dkey : String → String

/-- `core.key` as a hex string. -/
def corePublicKey (cm : CryptoModel) (c : Core) : String :=
  match c.ident with
  | .byName n => cm.namedKey n
  | .byKey k => k

/-- Error taxonomy: every throw site in the backend throws
`new Error(message)`; the constructors below name the distinct messages.
`storeNotInit` = 'Corestore not initialized', `p2pNotInit` = 'P2P Manager
not initialized', `swarmNotInit` = 'Swarm not initialized', `readOnly` =
'This core is read-only', `notFound c` = `Chat ${c} not found`. -/
inductive Err where
  | storeNotInit
  | p2pNotInit
  | swarmNotInit
  | readOnly
  | notFound (chatId : String)
deriving DecidableEq, Repr

/-- CorestoreManager state: `ready` flag and the `cores` map
(`Map<chatId, Hypercore>`). -/
structure CorestoreManager where
  ready : Bool
  cores : List (String × Core)
deriving DecidableEq, Repr

/-- `CorestoreManager.getChatCore(chatId, key = null)`
(corestore-manager.js lines 42–76): fails if not ready; returns the cached
core if present (ignoring `key`); otherwise `store.get({key})` when `key`
is truthy, else `store.get({name: chatId})`, and caches the result.  A
fresh core starts empty. -/
def getChatCore (st : CorestoreManager) (chatId : String) (key : Option String) :
    Except Err (Core × CorestoreManager) :=
  if st.ready = false then .error .storeNotInit
  else
    match mlookup st.cores chatId with
    | some c => .ok (c, st)
    | none =>
      -- JS truthiness of `if (key)`: null/undefined and "" are falsy.
      let core : Core :=
        match key with
        | some k => if k = "" then ⟨.byName chatId, []⟩ else ⟨.byKey k, []⟩
        | none => ⟨.byName chatId, []⟩
      .ok (core, { st with cores := minsert st.cores chatId core })

/-- `CorestoreManager.appendMessage(chatId, message)`
(corestore-manager.js lines 84–102), sequential (non-interleaved) run:
gets the core, fails if not writable, stamps
`{...message, timestamp: Date.now(), seq: core.length}`, appends, and
returns the stamped seq.  `now` is the `Date.now()` reading. -/
def appendMessage (st : CorestoreManager) (chatId : String) (message : Msg)
    (now : Nat) : Except Err (Nat × CorestoreManager) :=
  match getChatCore st chatId none with
  | .error e => .error e
  | .ok (core, st') =>
    if coreWritable core = false then .error .readOnly
    else
      let messageData : Msg :=
        { message with timestamp := some now, seq := some core.entries.length }
      let core' : Core := { core with entries := core.entries ++ [messageData] }
      .ok (core.entries.length, { st' with cores := minsert st'.cores chatId core' })

/-- `CorestoreManager.getMessage(chatId, seq)` (corestore-manager.js lines
110–119): null when `seq >= core.length`, otherwise the entry at `seq`
(in that branch `seq < length`, so `get?` is `some`). -/
def getMessage (st : CorestoreManager) (chatId : String) (seq : Nat) :
    Except Err (Option Msg × CorestoreManager) :=
  match getChatCore st chatId none with
  | .error e => .error e
  | .ok (core, st') =>
    if core.entries.length ≤ seq then .ok (none, st')
    else .ok (core.entries.get? seq, st')

/-- The read loop of `getAllMessages`: `count` iterations starting at
index `i`, collecting `core.get(i)` in order. -/
def readCount (entries : List Msg) : Nat → Nat → List Msg
  | _, 0 => []
  | i, n + 1 => (entries.get? i).toList ++ readCount entries (i + 1) n

/-- `CorestoreManager.getAllMessages(chatId, options)` (corestore-manager.js
lines 127–139): `{start = 0, end = core.length} = options`, then
`for (let i = start; i < Math.min(end, core.length); i++)` pushes
`core.get(i)` — i.e. `min end length - start` iterations from `start`. -/
def getAllMessages (st : CorestoreManager) (chatId : String)
    (startOpt endOpt : Option Nat) : Except Err (List Msg × CorestoreManager) :=
  match getChatCore st chatId none with
  | .error e => .error e
  | .ok (core, st') =>
    let s := startOpt.getD 0
    let e := endOpt.getD core.entries.length
    .ok (readCount core.entries s (min e core.entries.length - s), st')

/-- `CorestoreManager.getCoreInfo(chatId)` result shape. -/
structure CoreInfo where
  chatId : String
  discoveryKey : String
  publicKey : String
  writable : Bool
  length : Nat
deriving DecidableEq, Repr

/-- `CorestoreManager.getCoreInfo(chatId)` (corestore-manager.js lines
171–181). -/
def getCoreInfo (cm : CryptoModel) (st : CorestoreManager) (chatId : String) :
    Except Err (CoreInfo × CorestoreManager) :=
  match getChatCore st chatId none with
  | .error e => .error e
  | .ok (core, st') =>
    .ok ({ chatId := chatId
           discoveryKey := cm.dkey (corePublicKey cm core)
           publicKey := corePublicKey cm core
           writable := coreWritable core
           length := core.entries.length }, st')

/-- `CorestoreManager.closeCore(chatId)` (corestore-manager.js lines
197–204): closes and drops the cached core, if any. -/
def closeCore (st : CorestoreManager) (chatId : String) : CorestoreManager :=
  { st with cores := st.cores.filter (fun p => !(p.1 = chatId : Bool)) }

/-- A connected peer as stored in `SwarmManager.peers`
(swarm-manager module, `handleConnection`).  The live socket itself is not
modelled. -/
structure PeerInfo where
  connectedAt : Nat
  client : Bool
deriving DecidableEq, Repr

/-- A peer snapshot as returned by `getConnectedPeers`. -/
structure PeerSnap where
  publicKey : String
  connectedAt : Nat
  client : Bool
deriving DecidableEq, Repr

/-- A `topicInfo` record as stored in `SwarmManager.topics`
(swarm-manager module, `joinTopic`).  `topic` is the hash rendered as hex
(we identify the buffer and its hex string); the `discovery` handle is the
record itself. -/
structure TopicInfo where
  chatId : String
  topic : String
  topicString : String
  connections : List String
  joinedAt : Nat
deriving DecidableEq, Repr

/-- SwarmManager state.  `announces` is a ghost history of `swarm.join`
announcements (newest first), recorded so that "no duplicate announce" is
expressible; the source performs the announce as a side effect. -/
structure SwarmManager where
  ready : Bool
  topics : List (String × TopicInfo)
  peers : List (String × PeerInfo)
  announces : List String
deriving DecidableEq, Repr

/-- `SwarmManager.joinTopic(chatId, topicString = null)` (swarm-manager
module, lines 281–322): fails if not ready; `topicStr = topicString || chatId`
(JS `||`), `topic = crypto.hash(topicStr)`; if the topics map already has
this topic, return the cached record (no announce); otherwise announce
(`swarm.join`), build the record and cache it.  `now` is `Date.now()`. -/
def joinTopic (cm : CryptoModel) (sw : SwarmManager) (chatId : String)
    (topicString : Option String) (now : Nat) :
    Except Err (TopicInfo × SwarmManager) :=
  if sw.ready = false then .error .swarmNotInit
  else
    let topicStr := jsStringOr topicString chatId
    let topicHex := cm.hash topicStr
    match mlookup sw.topics topicHex with
    | some ti => .ok (ti, sw)
    | none =>
      let ti : TopicInfo :=
        { chatId := chatId, topic := topicHex, topicString := topicStr
          connections := [], joinedAt := now }
      .ok (ti, { sw with topics := minsert sw.topics topicHex ti
                         announces := topicHex :: sw.announces })

/-- `SwarmManager.leaveTopic(chatId)` (swarm-manager module, lines 328–340):
destroy and drop the first topic registered for `chatId`; false if none. -/
def leaveTopic (sw : SwarmManager) (chatId : String) : Bool × SwarmManager :=
  match sw.topics.find? (fun p => p.2.chatId = chatId) with
  | some (k, _) =>
    (true, { sw with topics := sw.topics.filter (fun p => !(p.1 = k : Bool)) })
  | none => (false, sw)

/-- `SwarmManager.getConnectedPeers(chatId)` (swarm-manager module, lines
347–366): for each topic registered for `chatId`, look up each connection's
peer record and snapshot it. -/
def getConnectedPeers (sw : SwarmManager) (chatId : String) : List PeerSnap :=
  (sw.topics.filter (fun p => p.2.chatId = chatId)).flatMap (fun p =>
    p.2.connections.filterMap (fun pk =>
      (mlookup sw.peers pk).map (fun pi =>
        { publicKey := pk, connectedAt := pi.connectedAt, client := pi.client })))

/-- `SwarmManager.broadcastMessage(chatId, message)` (swarm-manager module,
lines 387–413): best-effort `conn.write` to each connected peer — no effect
on any state this model tracks. -/
def broadcastMessage (sw : SwarmManager) (_chatId : String) (_message : Msg)
    (_now : Nat) : SwarmManager :=
  sw

/-- A chat-info-shaped JS object: covers the internal `chatInfo` session
records stored in `P2PManager.chats` as well as the values returned by
`createChat` / `joinChat` (which have different field sets — `none` = the
field is absent on that path). -/
structure ChatRecord where
  chatId : String
  metadata : Metadata := []
  core : Option Core := none
  topic : Option TopicInfo := none
  createdAt : Option Nat := none
  joinedAt : Option Nat := none
  messageCount : Nat := 0
  discoveryKey : Option String := none
  publicKey : Option CoreInfo := none
  peers : Option (List PeerSnap) := none
deriving DecidableEq, Repr

/-- P2PManager state (p2p-manager module).  `initDone` is the source's
`this.initialized` flag; `chats` is `Map<chatId, ChatInfo>`. -/
structure P2PManager where
  initDone : Bool
  cs : CorestoreManager
  swarm : SwarmManager
  chats : List (String × ChatRecord)
deriving DecidableEq, Repr

/-- `P2PManager.createChat(chatId, metadata = {})` (p2p-manager module,
lines 487–531): fails if not initialized; returns the cached session record
if the chat exists; otherwise creates the core (`getChatCore(chatId)`, no
key), joins the topic (`joinTopic(chatId)`, no explicit topic), registers
the session record `{chatId, metadata, core, topic, createdAt, messageCount}`,
and returns `{chatId, discoveryKey: topicInfo.topicHex, publicKey:
await getCoreInfo(chatId), metadata, messageCount}`. -/
def createChat (cm : CryptoModel) (st : P2PManager) (chatId : String)
    (metadata : Metadata) (now : Nat) : Except Err (ChatRecord × P2PManager) :=
  if st.initDone = false then .error .p2pNotInit
  else
    match mlookup st.chats chatId with
    | some info => .ok (info, st)
    | none =>
      match getChatCore st.cs chatId none with
      | .error e => .error e
      | .ok (core, cs') =>
        match joinTopic cm st.swarm chatId none now with
        | .error e => .error e
        | .ok (ti, sw') =>
          let chatInfo : ChatRecord :=
            { chatId := chatId, metadata := metadata, core := some core
              topic := some ti, createdAt := some now
              messageCount := core.entries.length }
          let chats' := minsert st.chats chatId chatInfo
          match getCoreInfo cm cs' chatId with
          | .error e => .error e
          | .ok (coreInfo, cs'') =>
            .ok ({ chatId := chatId, discoveryKey := some ti.topic
                   publicKey := some coreInfo, metadata := metadata
                   messageCount := core.entries.length },
                 { st with cs := cs'', swarm := sw', chats := chats' })

/-- `P2PManager.joinChat(chatId, discoveryKey, metadata = {})` (p2p-manager
module, lines 540–579): fails if not initialized; joins the topic with the
supplied key as the topic string, then calls `getChatCore(chatId)` — with
NO key argument — registers the session record and returns
`{chatId, discoveryKey: topicInfo.topicHex, metadata, messageCount, peers}`. -/
def joinChat (cm : CryptoModel) (st : P2PManager) (chatId : String)
    (discoveryKey : String) (metadata : Metadata) (now : Nat) :
    Except Err (ChatRecord × P2PManager) :=
  if st.initDone = false then .error .p2pNotInit
  else
    match joinTopic cm st.swarm chatId (some discoveryKey) now with
    | .error e => .error e
    | .ok (ti, sw') =>
      match getChatCore st.cs chatId none with
      | .error e => .error e
      | .ok (core, cs') =>
        let chatInfo : ChatRecord :=
          { chatId := chatId, metadata := metadata, core := some core
            topic := some ti, joinedAt := some now
            messageCount := core.entries.length }
        .ok ({ chatId := chatId, discoveryKey := some ti.topic
               metadata := metadata, messageCount := core.entries.length
               peers := some (getConnectedPeers sw' chatId) },
             { st with cs := cs', swarm := sw'
                       chats := minsert st.chats chatId chatInfo })

/-- `P2PManager.sendMessage(chatId, message)` (p2p-manager module, lines
587–617): fails if not initialized; fails with `Chat ... not found` if the
session registry has no entry; appends (stamping `timestamp: Date.now()` at
`tAppend` inside `appendMessage`), then builds the returned
`{...message, seq, timestamp: Date.now(), chatId}` with a SECOND clock
reading `tSend`, broadcasts it, and returns it. -/
def sendMessage (st : P2PManager) (chatId : String) (message : Msg)
    (tAppend tSend : Nat) : Except Err (Msg × P2PManager) :=
  if st.initDone = false then .error .p2pNotInit
  else if (mlookup st.chats chatId).isNone then .error (.notFound chatId)
  else
    match appendMessage st.cs chatId message tAppend with
    | .error e => .error e
    | .ok (seq, cs') =>
      let sentMessage : Msg :=
        { message with seq := some seq, timestamp := some tSend
                       chatId := some chatId }
      let sw' := broadcastMessage st.swarm chatId sentMessage tSend
      .ok (sentMessage, { st with cs := cs', swarm := sw' })

/-- `P2PManager.getMessages(chatId, options = {})` (p2p-manager module,
lines 625–641): fails if not initialized; otherwise delegates to
`getAllMessages` — with no check that a session for `chatId` exists. -/
def getMessages (st : P2PManager) (chatId : String)
    (startOpt endOpt : Option Nat) : Except Err (List Msg × P2PManager) :=
  if st.initDone = false then .error .p2pNotInit
  else
    match getAllMessages st.cs chatId startOpt endOpt with
    | .error e => .error e
    | .ok (msgs, cs') => .ok (msgs, { st with cs := cs' })

/-- `P2PManager.getChatInfo(chatId)` result shape. -/
structure ChatInfoResult where
  chatId : String
  metadata : Metadata
  messageCount : Nat
  discoveryKey : String
  publicKey : String
  peers : Nat
  connectedPeers : List PeerSnap
  createdAt : Option Nat
deriving DecidableEq, Repr

/-- `P2PManager.getChatInfo(chatId)` (p2p-manager module, lines 681–701):
fails with `Chat ... not found` when the session registry has no entry;
otherwise merges core info and the peer snapshot.
`createdAt: chatInfo.createdAt || chatInfo.joinedAt` is JS `||`
(a 0 timestamp is falsy). -/
def getChatInfo (cm : CryptoModel) (st : P2PManager) (chatId : String) :
    Except Err (ChatInfoResult × P2PManager) :=
  match mlookup st.chats chatId with
  | none => .error (.notFound chatId)
  | some info =>
    match getCoreInfo cm st.cs chatId with
    | .error e => .error e
    | .ok (ci, cs') =>
      let peers := getConnectedPeers st.swarm chatId
      .ok ({ chatId := chatId, metadata := info.metadata
             messageCount := ci.length, discoveryKey := ci.discoveryKey
             publicKey := ci.publicKey, peers := peers.length
             connectedPeers := peers
             createdAt :=
               match info.createdAt with
               | some t => if t = 0 then info.joinedAt else some t
               | none => info.joinedAt }, { st with cs := cs' })

/-- `P2PManager.leaveChat(chatId)` (p2p-manager module, lines 723–744):
returns false (no error) when the session registry has no entry; otherwise
leaves the topic, closes the core, removes the session, returns true. -/
def leaveChat (st : P2PManager) (chatId : String) :
    Except Err (Bool × P2PManager) :=
  if (mlookup st.chats chatId).isNone then .ok (false, st)
  else
    let sw' := (leaveTopic st.swarm chatId).2
    let cs' := closeCore st.cs chatId
    .ok (true, { st with swarm := sw', cs := cs'
                         chats := st.chats.filter (fun p => !(p.1 = chatId : Bool)) })

/-!
## Interleaved semantics of `appendMessage` (for claim C1)

`appendMessage` (corestore-manager.js lines 84–102) is an `async` function
with two await points around the seq assignment: it awaits
`getChatCore`, then SYNCHRONOUSLY reads `core.length` into the stamped
`seq` field (line 94) and invokes `core.append`, then awaits the append's
resolution (line 98) — and `core.length` only increases when that append
resolves.  Under Node's event loop, any other in-flight `appendMessage`
call on the same chat may run its synchronous stamping block between one
call's stamp and its commit.  We model one writable chat log; a call `i`
takes two atomic steps:

* `start i` — the synchronous block: stamp `seq_i := core.length` (the
  committed length) and issue the append;
* `commit i` — the resolution of `await core.append`: the entry (carrying
  the stamped `seq_i`) is durably stored and `core.length` increments.

A schedule is any event list; events that violate the call protocol
(stamping twice, committing before stamping or twice) are ignored. -/

inductive ApEvent where
  | start (i : Nat)
  | commit (i : Nat)
deriving DecidableEq, Repr

/-- State of the interleaved-append model: committed log length, the seq
stamped by each started call, and the set of committed calls. -/
structure ApState where
  len : Nat
  stamped : List (Nat × Nat)
  committed : List Nat
deriving DecidableEq, Repr

def apInit : ApState := { len := 0, stamped := [], committed := [] }

def apStep (s : ApState) : ApEvent → ApState
  | .start i =>
    match mlookup s.stamped i with
    | some _ => s
    | none => { s with stamped := minsert s.stamped i s.len }
  | .commit i =>
    match mlookup s.stamped i with
    | none => s
    | some _ =>
      if s.committed.contains i then s
      else { s with len := s.len + 1, committed := i :: s.committed }

/-- Run a schedule of interleaved `appendMessage` steps from the empty log. -/
def apRun (evs : List ApEvent) : ApState :=
  evs.foldl apStep apInit

/-!
## Concrete fixtures for closed theorems and witnesses
-/

/-- A concrete instantiation of the opaque crypto primitives, used only to
evaluate closed statements whose truth does not depend on the primitives'
values. -/
def cmTest : CryptoModel :=
  { hash := fun s => String.append "hash:" s
    namedKey := fun s => String.append "namedKey:" s
    dkey := fun s => String.append "dkey:" s }

/-- A second instantiation with identity functions, for the C6
counterexample (any single instantiation refutes a formula claimed for the
abstract primitives). -/
def cmId : CryptoModel := { hash := id, namedKey := id, dkey := id }

def swarm0 : SwarmManager :=
  { ready := true, topics := [], peers := [], announces := [] }

def cs0 : CorestoreManager := { ready := true, cores := [] }

/-- A freshly initialized P2PManager: both subsystems ready, no sessions. -/
def p2p0 : P2PManager :=
  { initDone := true, cs := cs0, swarm := swarm0, chats := [] }

/-- The entries of a log at indices `[s, min e l.length)`, in index order —
the spec's words for `readRange(chatId, s, e)`
("ordered sequence over `[start, min(end,length))`"). -/
def entriesInRange (l : List Msg) (s e : Nat) : List Msg :=
  (List.range' s (min e l.length - s)).filterMap l.get?

/-- The spec's words for the topic input of `joinTopic`:
"topic = hash(explicitTopic ?? chatId)" — JS `??` falls back only on
null/undefined, so an empty-string explicit topic stays "".  (The source
uses `||`, i.e. `jsStringOr`.) -/
def specTopicArg (chatId : String) (explicitTopic : Option String) : String :=
  explicitTopic.getD chatId

/-- Well-formedness of the swarm's topic registry: every cached record is
stored under its own topic hash (true of every record the source inserts). -/
def SwarmWF (sw : SwarmManager) : Prop :=
  ∀ k ti, mlookup sw.topics k = some ti → ti.topic = k

/-- An empty writable core for chat "room". -/
def coreRoom : Core := ⟨.byName "room", []⟩

/-- A ready CorestoreManager with the empty writable "room" core cached. -/
def csRoom : CorestoreManager := { ready := true, cores := [("room", coreRoom)] }

/-- A sample stored message. -/
def msgA : Msg :=
  { text := some "hello", author := some "alice", authorId := some "a1"
    timestamp := some 50, seq := some 0 }

/-- A writable "room" core holding one entry. -/
def coreOne : Core := ⟨.byName "room", [msgA]⟩

/-- A ready CorestoreManager with the one-entry "room" core cached. -/
def csOne : CorestoreManager := { ready := true, cores := [("room", coreOne)] }

/-- An initialized P2PManager with an active "room" session over the empty
writable core (fixture for sendMessage runs). -/
def c2St : P2PManager :=
  { initDone := true, cs := csRoom, swarm := swarm0
    chats := [("room", { chatId := "room" })] }

/-- The message the bridge hands to `sendMessage` (main.js lines 71–78):
text/author/authorId only. -/
def c2Input : Msg :=
  { text := some "hi", author := some "alice", authorId := some "a1" }

/-- A concrete `sendMessage` run with clock readings 100 (inside
`appendMessage`) and 101 (when building the returned object). -/
def c2Run : Except Err (Msg × P2PManager) := sendMessage c2St "room" c2Input 100 101

/-- The message `sendMessage` returned in `c2Run`. -/
def c2Ret : Option Msg := c2Run.toOption.map Prod.fst

/-- The entry durably stored at the assigned seq (0) in `c2Run`. -/
def c2Stored : Option Msg :=
  c2Run.toOption.bind (fun r =>
    (mlookup r.2.cs.cores "room").bind (fun c => c.entries.get? 0))

/-- The value returned by the first `createChat("room")` on a fresh manager. -/
def c7r1 : Option ChatRecord :=
  (createChat cmTest p2p0 "room" [] 5).toOption.map Prod.fst

/-- The value returned by a second `createChat("room")` on the resulting
state. -/
def c7r2 : Option ChatRecord :=
  (createChat cmTest p2p0 "room" [] 5).toOption.bind (fun r =>
    (createChat cmTest r.2 "room" [] 6).toOption.map Prod.fst)

/-- The manager state after the first `createChat("room")`. -/
def c7St1 : P2PManager :=
  ((createChat cmTest p2p0 "room" [] 5).toOption.map Prod.snd).getD p2p0

/-- The session record registered for "room" in `c7St1`. -/
def c7Info : ChatRecord :=
  (mlookup c7St1.chats "room").getD { chatId := "" }

/-! ## Helper lemmas -/

theorem mlookup_minsert_self {α : Type} (l : List (String × α)) (k : String)
    (v : α) : mlookup (minsert l k v) k = some v := by
  simp [mlookup, minsert]

theorem readCount_eq_filterMap (l : List Msg) :
    ∀ (n i : Nat), readCount l i n = (List.range' i n).filterMap l.get? := by
  intro n
  induction n with
  | zero => intro i; simp [readCount, List.range']
  | succ n ih =>
    intro i
    cases h : l[i]? <;>
      simp [readCount, List.range', List.filterMap_cons, h, ih,
            List.get?_eq_getElem?]

/-! ## Claim theorems -/

/-- Claim C1 (status: code_bug).  `appendMessage` stamps and returns
`seq = core.length` read BEFORE the awaited `core.append` resolves, so two
concurrent appends on an empty log, interleaved as
start₁, start₂, commit₁, commit₂, both get seq 0: two entries are durably
appended (`len = 2`) yet the returned/stored seqs are 0 and 0 — duplicated,
with no seq 1 — contradicting "sequence numbers are exactly 0..N-1 with no
gaps and no duplicates ... concurrent callers never observe/assign the same
seq". -/
theorem append_concurrent_duplicate_seq :
    (apRun [.start 1, .start 2, .commit 1, .commit 2]).len = 2 ∧
    mlookup (apRun [.start 1, .start 2, .commit 1, .commit 2]).stamped 1 = some 0 ∧
    mlookup (apRun [.start 1, .start 2, .commit 1, .commit 2]).stamped 2 = some 0 := by
  decide

/-- Claim C2, counterexample.  In a concrete `sendMessage` run (clock 100
at append time, 101 at return time) the returned message and the entry
stored at the assigned seq both exist but differ in their `chatId` fields
(stored entry has none) and in their `timestamp` fields (100 vs 101) —
refuting "the returned object's ... timestamp ... and chatId fields equal
those of the entry durably stored at that seq". -/
theorem sendMessage_return_differs_from_stored :
    c2Ret.isSome ∧ c2Stored.isSome ∧
    c2Ret.map Msg.chatId ≠ c2Stored.map Msg.chatId ∧
    c2Ret.map Msg.timestamp ≠ c2Stored.map Msg.timestamp := by
  decide

/-- Claim C2, amended: for an active session over a cached writable log,
`sendMessage` stores `{...msg, timestamp := tAppend, seq := length}` at the
end of the log and returns `{...msg, seq := length, timestamp := tSend,
chatId := chatId}` — text, author, authorId and seq agree with the stored
entry, but the returned timestamp is re-stamped at return time (`tSend`,
not the stored `tAppend`) and `chatId` is attached only to the returned
object, not to the stored entry. -/
theorem sendMessage_amended (st : P2PManager) (chatId : String)
    (info : ChatRecord) (c : Core) (msg : Msg) (tAppend tSend : Nat)
    (hinit : st.initDone = true) (hs : mlookup st.chats chatId = some info)
    (hcr : st.cs.ready = true) (hc : mlookup st.cs.cores chatId = some c)
    (hw : coreWritable c = true) :
    sendMessage st chatId msg tAppend tSend =
      .ok ({ msg with seq := some c.entries.length, timestamp := some tSend,
                      chatId := some chatId },
           { st with cs := { st.cs with cores := (minsert st.cs.cores chatId
               { c with entries := c.entries ++
                   [{ msg with timestamp := some tAppend,
                               seq := some c.entries.length }] }) } }) := by
  simp [sendMessage, appendMessage, getChatCore, broadcastMessage,
        hinit, hs, hcr, hc, hw]

/-- Witness for C2's amended theorem at a concrete input. -/
theorem sendMessage_amended_witness :
    sendMessage c2St "room" c2Input 100 101 =
      .ok ({ c2Input with seq := some coreRoom.entries.length,
                          timestamp := some 101, chatId := some "room" },
           { c2St with cs := { c2St.cs with cores := (minsert c2St.cs.cores "room"
               { coreRoom with entries := coreRoom.entries ++
                   [{ c2Input with timestamp := some 100,
                                   seq := some coreRoom.entries.length }] }) } }) :=
  sendMessage_amended c2St "room" { chatId := "room" } coreRoom c2Input 100 101
    (by decide) (by decide) (by decide) (by decide) (by decide)

/-- Claim C3 (status: code_bug).  On a fresh initialized manager,
`joinChat("room", "deadbeef")` leaves the local log for "room" as a
NEW-IDENTITY log (`store.get({name: "room"})`, writable) — the supplied
address never reaches the log store (`getChatCore` is called with no key),
contradicting "opens or creates the local log addressed by the supplied
address ... generally non-writable". -/
theorem joinChat_creates_new_identity_log :
    ((joinChat cmTest p2p0 "room" "deadbeef" [] 0).toOption.bind
        (fun r => mlookup r.2.cs.cores "room")).map
        (fun c => (c.ident, coreWritable c)) = some (.byName "room", true) ∧
    ((joinChat cmTest p2p0 "room" "deadbeef" [] 0).toOption.bind
        (fun r => mlookup r.2.cs.cores "room")).map
        (fun c => (c.ident, coreWritable c)) ≠ some (.byKey "deadbeef", false) := by
  decide

/-- Claim C4, counterexample.  On an initialized manager with NO session
for "ghost" (state Absent), `getMessages` does not fail with
NotFoundError: it silently creates a fresh empty log for "ghost" and
returns the empty list. -/
theorem getMessages_absent_session_succeeds :
    getMessages p2p0 "ghost" none none =
      .ok ([], { p2p0 with cs :=
        { ready := true, cores := [("ghost", ⟨.byName "ghost", []⟩)] } }) := by
  decide

/-- Claim C4, amended: on an Absent session, `sendMessage` and
`getChatInfo` fail with NotFoundError and `leaveChat` returns false without
error, but `getMessages` succeeds — it implicitly creates a fresh empty log
for the chatId and returns the empty list. -/
theorem absent_session_ops (cm : CryptoModel) (st : P2PManager)
    (chatId : String) (msg : Msg) (tAppend tSend : Nat)
    (hinit : st.initDone = true) (habs : mlookup st.chats chatId = none)
    (hcr : st.cs.ready = true) (hnc : mlookup st.cs.cores chatId = none) :
    sendMessage st chatId msg tAppend tSend = .error (.notFound chatId) ∧
    getChatInfo cm st chatId = .error (.notFound chatId) ∧
    leaveChat st chatId = .ok (false, st) ∧
    getMessages st chatId none none =
      .ok ([], { st with cs := { st.cs with cores :=
        (minsert st.cs.cores chatId ⟨.byName chatId, []⟩) } }) := by
  refine ⟨?_, ?_, ?_, ?_⟩
  · simp [sendMessage, habs, hinit]
  · simp [getChatInfo, habs]
  · simp [leaveChat, habs]
  · simp [getMessages, getAllMessages, getChatCore, readCount,
          hinit, hcr, hnc, habs]

/-- Witness for C4's amended theorem at a concrete input. -/
theorem absent_session_ops_witness :
    sendMessage p2p0 "ghost" c2Input 7 8 = .error (.notFound "ghost") ∧
    getChatInfo cmTest p2p0 "ghost" = .error (.notFound "ghost") ∧
    leaveChat p2p0 "ghost" = .ok (false, p2p0) ∧
    getMessages p2p0 "ghost" none none =
      .ok ([], { p2p0 with cs := { p2p0.cs with cores :=
        (minsert p2p0.cs.cores "ghost" ⟨.byName "ghost", []⟩) } }) :=
  absent_session_ops cmTest p2p0 "ghost" c2Input 7 8
    (by decide) (by decide) (by decide) (by decide)

/-- Claim C6, counterexample.  The source computes the topic input with JS
`||` (`topicString || chatId`), not `??`: for chatId "room" and explicit
topic "" the source hashes "room" while the claim's formula
hash(explicitTopic ?? chatId) hashes "" — under the (legitimate)
instantiation `cmId` of the opaque hash the computed topic is "room",
whereas the claim's formula yields "". -/
theorem joinTopic_empty_explicit_topic_cex :
    jsStringOr (some "") "room" ≠ specTopicArg "room" (some "") ∧
    (joinTopic cmId swarm0 "room" (some "") 0).toOption.map
      (fun r => r.1.topic) = some "room" ∧
    cmId.hash (specTopicArg "room" (some "")) = "" := by
  decide

/-- Claim C6, amended: `joinTopic` computes
topic = hash(explicitTopic || chatId) (JS `||`: a null, undefined or
EMPTY-STRING explicit topic falls back to chatId), a pure function of the
input alone — identical across states/instances — and is idempotent: an
immediate re-join with the same input returns the very same handle and
leaves the swarm state (in particular its announce history) unchanged. -/
theorem joinTopic_pure_idempotent (cm : CryptoModel) (sw : SwarmManager)
    (chatId : String) (explicitTopic : Option String) (now now' : Nat)
    (hr : sw.ready = true) (hwf : SwarmWF sw) :
    ∃ ti sw',
      joinTopic cm sw chatId explicitTopic now = .ok (ti, sw') ∧
      ti.topic = cm.hash (jsStringOr explicitTopic chatId) ∧
      joinTopic cm sw' chatId explicitTopic now' = .ok (ti, sw') ∧
      sw'.ready = true := by
  cases h : mlookup sw.topics (cm.hash (jsStringOr explicitTopic chatId)) with
  | some ti0 =>
    refine ⟨ti0, sw, ?_, hwf _ _ h, ?_, hr⟩ <;> simp [joinTopic, hr, h]
  | none =>
    have hmain : joinTopic cm sw chatId explicitTopic now =
        .ok ({ chatId := chatId, topic := cm.hash (jsStringOr explicitTopic chatId),
               topicString := jsStringOr explicitTopic chatId, connections := [],
               joinedAt := now },
             { sw with
               topics := (minsert sw.topics (cm.hash (jsStringOr explicitTopic chatId))
                 { chatId := chatId, topic := cm.hash (jsStringOr explicitTopic chatId),
                   topicString := jsStringOr explicitTopic chatId, connections := [],
                   joinedAt := now }),
               announces := cm.hash (jsStringOr explicitTopic chatId) :: sw.announces }) := by
      simp [joinTopic, hr, h]
    refine ⟨_, _, hmain, rfl, ?_, hr⟩
    simp [joinTopic, hr, mlookup_minsert_self]

/-- Witness for C6's amended theorem at a concrete input. -/
theorem joinTopic_pure_idempotent_witness :
    ∃ ti sw',
      joinTopic cmTest swarm0 "room" none 0 = .ok (ti, sw') ∧
      ti.topic = cmTest.hash (jsStringOr none "room") ∧
      joinTopic cmTest sw' "room" none 1 = .ok (ti, sw') ∧
      sw'.ready = true :=
  joinTopic_pure_idempotent cmTest swarm0 "room" none 0 1 rfl
    (fun k ti h => by simp [swarm0, mlookup] at h)

/-- Claim C7, counterexample.  On a fresh manager, the first
`createChat("room")` and an immediately repeated `createChat("room")` both
succeed, but return DIFFERENT objects of different shapes: the first
returns `{chatId, discoveryKey, publicKey, metadata, messageCount}`
(discoveryKey present), the second returns the cached internal session
record `{chatId, metadata, core, topic, createdAt, messageCount}`
(no discoveryKey field) — refuting "a second call ... returns the same
result as the first". -/
theorem createChat_second_call_shape_cex :
    c7r1.isSome ∧ c7r2.isSome ∧ c7r1 ≠ c7r2 ∧
    c7r1.map (fun r => r.discoveryKey.isSome) = some true ∧
    c7r2.map (fun r => r.discoveryKey.isSome) = some false := by
  decide

/-- Claim C7, amended: `createChat` is idempotent in effect — when a
session for the chatId already exists, a second call creates no second log,
session or topic (the whole manager state is returned unchanged) and
returns the cached internal session record; only the returned shape differs
from the first call's return value. -/
theorem createChat_cached_session (cm : CryptoModel) (st : P2PManager)
    (chatId : String) (metadata : Metadata) (now : Nat) (info : ChatRecord)
    (hinit : st.initDone = true) (hs : mlookup st.chats chatId = some info) :
    createChat cm st chatId metadata now = .ok (info, st) := by
  simp [createChat, hinit, hs]

/-- Witness for C7's amended theorem at a concrete input: re-creating
"room" after a first `createChat` returns the registered session record and
the unchanged state. -/
theorem createChat_cached_session_witness :
    createChat cmTest c7St1 "room" [] 6 = .ok (c7Info, c7St1) :=
  createChat_cached_session cmTest c7St1 "room" [] 6 c7Info
    (by decide) (by decide)

/-- Claim C8: for a cached chat log, `getAllMessages(chatId, {start, end})`
returns (without error) exactly the log's entries at indices
`[start, min(end, length))` in index (= seq) order, and in particular the
empty sequence whenever `start ≥ length` — so also on an empty log. -/
theorem getAllMessages_range (st : CorestoreManager) (chatId : String)
    (c : Core) (s e : Nat)
    (hr : st.ready = true) (hc : mlookup st.cores chatId = some c) :
    getAllMessages st chatId (some s) (some e) =
      .ok (entriesInRange c.entries s e, st) ∧
    (c.entries.length ≤ s → entriesInRange c.entries s e = []) := by
  constructor
  · simp [getAllMessages, getChatCore, hr, hc, entriesInRange,
          readCount_eq_filterMap]
  · intro h
    have hz : min e c.entries.length - s = 0 :=
      Nat.sub_eq_zero_of_le (le_trans (min_le_right _ _) h)
    simp [entriesInRange, hz, List.range']

/-- Witness for C8 at a concrete input: an empty log with out-of-range
bounds yields the empty sequence, not an error. -/
theorem getAllMessages_range_witness :
    getAllMessages csRoom "room" (some 5) (some 9) =
      .ok (entriesInRange coreRoom.entries 5 9, csRoom) ∧
    (coreRoom.entries.length ≤ 5 → entriesInRange coreRoom.entries 5 9 = []) :=
  getAllMessages_range csRoom "room" coreRoom 5 9 (by decide) (by decide)

/-- Claim C9: for a cached chat log, `getMessage(chatId, seq)` returns
(without error) exactly the entry at `seq` when `seq < length` and null
when `seq ≥ length`; over its ℕ domain every out-of-range seq falls in the
null branch, so out-of-range reads never raise. -/
theorem getMessage_in_range_or_null (st : CorestoreManager) (chatId : String)
    (c : Core) (seq : Nat)
    (hr : st.ready = true) (hc : mlookup st.cores chatId = some c) :
    getMessage st chatId seq = .ok (c.entries.get? seq, st) ∧
    (c.entries.length ≤ seq → getMessage st chatId seq = .ok (none, st)) ∧
    (seq < c.entries.length →
      ∃ m, c.entries.get? seq = some m ∧
        getMessage st chatId seq = .ok (some m, st)) := by
  refine ⟨?_, ?_, ?_⟩
  · by_cases h : c.entries.length ≤ seq
    · simp [getMessage, getChatCore, hr, hc, h, List.get?_eq_getElem?,
            List.getElem?_eq_none h]
    · simp [getMessage, getChatCore, hr, hc, h]
  · intro h
    simp [getMessage, getChatCore, hr, hc, h]
  · intro h
    refine ⟨c.entries.get ⟨seq, h⟩, List.get?_eq_get h, ?_⟩
    simp [getMessage, getChatCore, hr, hc, Nat.not_le.mpr h, List.get?_eq_get h]

/-- Witness for C9 at a concrete input: a one-entry log read at seq 0
(in range) and seq 3 (out of range). -/
theorem getMessage_in_range_or_null_witness :
    (getMessage csOne "room" 3 = .ok (coreOne.entries.get? 3, csOne) ∧
      (coreOne.entries.length ≤ 3 → getMessage csOne "room" 3 = .ok (none, csOne)) ∧
      (3 < coreOne.entries.length →
        ∃ m, coreOne.entries.get? 3 = some m ∧
          getMessage csOne "room" 3 = .ok (some m, csOne))) ∧
    (getMessage csOne "room" 0 = .ok (coreOne.entries.get? 0, csOne) ∧
      (coreOne.entries.length ≤ 0 → getMessage csOne "room" 0 = .ok (none, csOne)) ∧
      (0 < coreOne.entries.length →
        ∃ m, coreOne.entries.get? 0 = some m ∧
          getMessage csOne "room" 0 = .ok (some m, csOne))) :=
  ⟨getMessage_in_range_or_null csOne "room" coreOne 3 (by decide) (by decide),
   getMessage_in_range_or_null csOne "room" coreOne 0 (by decide) (by decide)⟩

/-- Claim C10 (implicit): once a log for a chatId is cached, every
`getChatCore(chatId, key)` call returns the cached log unchanged and
silently ignores `key` — the same cached core comes back for EVERY key
argument, even one differing from the cached log's address; the cache is
keyed by chatId alone. -/
theorem getChatCore_cached_ignores_key (st : CorestoreManager)
    (chatId : String) (key : Option String) (c : Core)
    (hr : st.ready = true) (hc : mlookup st.cores chatId = some c) :
    getChatCore st chatId key = .ok (c, st) := by
  simp [getChatCore, hr, hc]

/-- Witness for C10 at a concrete input: the cached "room" core (a
name-derived core, address unrelated to "somekey") is returned even when a
differing key "somekey" is supplied. -/
theorem getChatCore_cached_ignores_key_witness :
    getChatCore csRoom "room" (some "somekey") = .ok (coreRoom, csRoom) :=
  getChatCore_cached_ignores_key csRoom "room" (some "somekey") coreRoom
    (by decide) (by decide)

end P2PNexus
